import Mathlib

/-!
Verification of `src/scripts/merge_model.py` (LoRA merge utility).

The script is a linear load → merge → save pipeline over an external ML
framework, wrapped in a broad try/except and a thin CLI.  We embed it
shallowly:

* the filesystem is an explicit state (`FSState`): an association list of
  files (later writes shadow earlier ones, so `List.lookup` returns the
  current content), a list of existing directories, and the stdout/stderr
  logs as structured messages;
* the external framework calls (`AutoModelForCausalLM.from_pretrained`,
  `PeftModel.from_pretrained`, `merge_and_unload`, `save_pretrained`,
  `AutoTokenizer.from_pretrained`, `tokenizer.save_pretrained`) are an
  environment `Env` of fallible functions returning `Except String _`
  (a Python exception becomes `.error msg`); the model/tokenizer handles
  are opaque type parameters, since the script never inspects them;
* the save routines return the relative filenames they produce; the
  embedding places them under the directory they were given.  Modelled
  from the spec: the framework's save routines write only into the
  directory passed to them ("writes to the filesystem under outputPath").
* each completed pipeline stage is recorded in an event trace, used to
  state ordering / abort properties.
-/

/-- Content of one file in the modelled filesystem.  `shard` is a weight
shard with its size in bytes and whether it is in the safe
(non-code-executing) serialization format; `jsonObj` is a flat JSON object
of string fields, as written by `json.dump` for the metadata record;
`tokFile` is a tokenizer file; `raw` any other content. -/
inductive File where
  | shard (sizeBytes : Nat) (safe : Bool)
  | tokFile (data : String)
  | jsonObj (fields : List (String × String))
  | raw (s : String)
deriving DecidableEq

/-- One message printed by the script.  Each constructor corresponds to a
print site of `merge_model.py`, carrying the values interpolated into the
f-string; multi-line blocks (usage text, banner, final summaries) are one
constructor each. -/
inductive Msg where
  | loadingBase (p : String)
  | baseLoaded
  | loadingAdapter (p : String)
  | adapterLoaded
  | merging
  | weightsMerged
  | savingModel (p : String)
  | modelSaved
  | savingTokenizer
  | tokenizerSaved
  | mergeSuccess (p : String)
  | mergeError (e : String)
  | usage
  | adapterMissing (p : String)
  | missingFiles (l : List String)
  | banner (base adapter output : String)
  | mergeComplete (output : String)
  | mergeFailed
deriving DecidableEq

/-- A completed pipeline stage, with the arguments the script passed.
`saveModel` records the directory, the `safe_serialization` flag and the
`max_shard_size` limit in bytes; `tok` records the directory the tokenizer
was loaded from (`src`) and saved to (`dst`). -/
inductive Ev where
  | loadBase (p : String)
  | loadAdapter (p : String)
  | merged
  | saveModel (dir : String) (safeSer : Bool) (maxShard : Nat)
  | tok (src dst : String)
  | meta (dir : String)
deriving DecidableEq

/-- Modelled filesystem plus process output.  `files` is an association
list from absolute path to content; a write prepends, so `List.lookup`
yields the most recent content.  `dirs` lists existing directories.
`out`/`err` are the stdout/stderr logs in print order. -/
structure FSState where
  files : List (String × File)
  dirs : List String
  out : List Msg
  err : List Msg
deriving DecidableEq

/-- The external ML framework operations used by the script, over opaque
handle types `B` (base model), `P` (peft model), `M` (merged model),
`T` (tokenizer).  A raised Python exception is `.error` carrying `str(e)`.
The two save operations return the relative filenames (with contents)
they produce inside the directory they were given. -/
structure Env (B P M T : Type) where
  loadBase : String → Except String B
  loadAdapter : B → String → Except String P
  mergeAndUnload : P → Except String M
  savePretrained : M → String → Bool → Nat → Except String (List (String × File))
  loadTokenizer : String → Except String T
  saveTokenizer : T → String → Except String (List (String × File))

/-- Byte limit meant by the string "2GB" the script passes as
`max_shard_size`. -/
def twoGB : Nat := 2 * 1024 * 1024 * 1024

/-- Append a message to stdout. -/
def outMsg (fs : FSState) (m : Msg) : FSState :=
  { fs with out := fs.out ++ [m] }

/-- Append a message to stderr. -/
def errMsg (fs : FSState) (m : Msg) : FSState :=
  { fs with err := fs.err ++ [m] }

/-- Write (or overwrite) one file: prepend, so lookup sees the new
content. -/
def writeFile (fs : FSState) (p : String) (f : File) : FSState :=
  { fs with files := (p, f) :: fs.files }

/-- Place a list of relative files under a directory. -/
def writeFiles (fs : FSState) (dir : String) : List (String × File) → FSState
  | [] => fs
  | (n, f) :: rest => writeFiles (writeFile fs (dir ++ "/" ++ n) f) dir rest

/-- `os.makedirs(p, exist_ok=ok)`: creates the directory; with
`exist_ok=False` an existing directory raises `FileExistsError`, with
`exist_ok=True` it is reused silently. -/
def makedirs (fs : FSState) (p : String) (exist_ok : Bool) : Except String FSState :=
  if p ∈ fs.dirs then
    if exist_ok then .ok fs else .error "FileExistsError"
  else .ok { fs with dirs := p :: fs.dirs }

/-- `os.path.exists`: true if `p` is an existing directory or file. -/
def pathExists (fs : FSState) (p : String) : Bool :=
  fs.dirs.contains p || (fs.files.lookup p).isSome

/-- Current content at a path (`none` if absent). -/
def lookupFile (fs : FSState) (p : String) : Option File :=
  fs.files.lookup p

/-- Result of `merge_lora_adapter`: the returned boolean, the filesystem /
output state, and the trace of completed stages. -/
structure MergeResult where
  success : Bool
  fs : FSState
  trace : List Ev
deriving DecidableEq

/-- The full six-stage trace of a successful run of
`merge_lora_adapter base adapter output`. -/
def fullTrace (base adapter output : String) : List Ev :=
  [.loadBase base, .loadAdapter adapter, .merged,
   .saveModel output true twoGB, .tok adapter output, .meta output]

/-- Embedding of `merge_lora_adapter(base_model_path, adapter_path,
output_path)` (src/scripts/merge_model.py lines 14–77).  The whole body
after the first print sits in one `try`; any `.error` from an environment
call is the caught exception: the script prints the error description to
stderr and returns `False`.  On full success it returns `True`. -/
def merge_lora_adapter {B P M T : Type} (env : Env B P M T)
    (base_model_path adapter_path output_path : String) (fs : FSState) : MergeResult :=
  let fs := outMsg fs (.loadingBase base_model_path)
  match env.loadBase base_model_path with
  | .error e => ⟨false, errMsg fs (.mergeError e), []⟩
  | .ok base_model =>
    let fs := outMsg (outMsg fs .baseLoaded) (.loadingAdapter adapter_path)
    match env.loadAdapter base_model adapter_path with
    | .error e => ⟨false, errMsg fs (.mergeError e), [.loadBase base_model_path]⟩
    | .ok model =>
      let fs := outMsg (outMsg fs .adapterLoaded) .merging
      match env.mergeAndUnload model with
      | .error e => ⟨false, errMsg fs (.mergeError e),
          [.loadBase base_model_path, .loadAdapter adapter_path]⟩
      | .ok merged_model =>
        let fs := outMsg (outMsg fs .weightsMerged) (.savingModel output_path)
        match makedirs fs output_path true with
        | .error e => ⟨false, errMsg fs (.mergeError e),
            [.loadBase base_model_path, .loadAdapter adapter_path, .merged]⟩
        | .ok fs =>
          match env.savePretrained merged_model output_path true twoGB with
          | .error e => ⟨false, errMsg fs (.mergeError e),
              [.loadBase base_model_path, .loadAdapter adapter_path, .merged]⟩
          | .ok shardFiles =>
            let fs := outMsg (outMsg (writeFiles fs output_path shardFiles) .modelSaved)
              .savingTokenizer
            match env.loadTokenizer adapter_path with
            | .error e => ⟨false, errMsg fs (.mergeError e),
                (fullTrace base_model_path adapter_path output_path).take 4⟩
            | .ok tokenizer =>
              match env.saveTokenizer tokenizer output_path with
              | .error e => ⟨false, errMsg fs (.mergeError e),
                  (fullTrace base_model_path adapter_path output_path).take 4⟩
              | .ok tokFiles =>
                let fs := outMsg (writeFiles fs output_path tokFiles) .tokenizerSaved
                let metadata : List (String × String) :=
                  [("base_model", base_model_path), ("adapter_path", adapter_path),
                   ("merged_by", "rag-dashboard"), ("dtype", "float16")]
                let fs := writeFile fs (output_path ++ "/merge_info.json") (.jsonObj metadata)
                let fs := outMsg fs (.mergeSuccess output_path)
                ⟨true, fs, fullTrace base_model_path adapter_path output_path⟩

/-- The two filenames `main` requires inside the adapter directory. -/
def required_files : List String := ["adapter_config.json", "adapter_model.safetensors"]

/-- Result of running `main`: the process exit code, the final
filesystem / output state, and the merge trace (empty when
`merge_lora_adapter` was never reached). -/
structure MainResult where
  exitCode : Nat
  fs : FSState
  trace : List Ev
deriving DecidableEq

/-- Embedding of `main()` (src/scripts/merge_model.py lines 79–130).
`argv` includes the program name at index 0, as `sys.argv` does.  The
source checks `len(sys.argv) < 4`, verifies the adapter path exists,
computes the missing required files, and only then calls
`merge_lora_adapter`, exiting 0 on success and 1 otherwise. -/
def main' {B P M T : Type} (env : Env B P M T) (argv : List String) (fs : FSState) :
    MainResult :=
  if argv.length < 4 then
    ⟨1, outMsg fs .usage, []⟩
  else
    let base_model_path := argv.getD 1 ""
    let adapter_path := argv.getD 2 ""
    let output_path := argv.getD 3 ""
    if pathExists fs adapter_path = false then
      ⟨1, errMsg fs (.adapterMissing adapter_path), []⟩
    else
      let missing_files := required_files.filter
        (fun f => !(pathExists fs (adapter_path ++ "/" ++ f)))
      if missing_files.isEmpty = false then
        ⟨1, errMsg fs (.missingFiles missing_files), []⟩
      else
        let fs := outMsg fs (.banner base_model_path adapter_path output_path)
        let r := merge_lora_adapter env base_model_path adapter_path output_path fs
        if r.success then
          ⟨0, outMsg r.fs (.mergeComplete output_path), r.trace⟩
        else
          ⟨1, outMsg r.fs .mergeFailed, r.trace⟩

/-- The six-stage pipeline as one `Except` computation, used to state
"all stages complete without raising". -/
def runStages {B P M T : Type} (env : Env B P M T) (b a o : String) :
    Except String Unit :=
  match env.loadBase b with
  | .error e => .error e
  | .ok bm =>
    match env.loadAdapter bm a with
    | .error e => .error e
    | .ok pm =>
      match env.mergeAndUnload pm with
      | .error e => .error e
      | .ok mm =>
        match env.savePretrained mm o true twoGB with
        | .error e => .error e
        | .ok _shards =>
          match env.loadTokenizer a with
          | .error e => .error e
          | .ok tk =>
            match env.saveTokenizer tk o with
            | .error e => .error e
            | .ok _tokFiles => .ok ()

/-- A concrete environment in which every framework call succeeds:
the model save produces one small safe shard, the tokenizer save one
tokenizer file. -/
def exEnv : Env Unit Unit Unit Unit where
  loadBase _ := .ok ()
  loadAdapter _ _ := .ok ()
  mergeAndUnload _ := .ok ()
  savePretrained _ _ _ _ := .ok [("model-00001-of-00001.safetensors", .shard 0 true)]
  loadTokenizer _ := .ok ()
  saveTokenizer _ _ := .ok [("tokenizer.json", .tokFile "tok")]

/-- A concrete environment whose base-model load raises. -/
def failEnv : Env Unit Unit Unit Unit where
  loadBase _ := .error "base model not found"
  loadAdapter _ _ := .ok ()
  mergeAndUnload _ := .ok ()
  savePretrained _ _ _ _ := .ok []
  loadTokenizer _ := .ok ()
  saveTokenizer _ _ := .ok []

/-- A concrete starting filesystem: an adapter directory "adptr" holding
both required adapter files, and nothing else. -/
def fs0 : FSState :=
  { files := [("adptr/adapter_config.json", .raw "cfg"),
              ("adptr/adapter_model.safetensors", .shard 10 true)],
    dirs := ["adptr"],
    out := [], err := [] }

/-- Like `fs0` but with the adapter weight file absent. -/
def fsNoWeights : FSState :=
  { files := [("adptr/adapter_config.json", .raw "cfg")],
    dirs := ["adptr"],
    out := [], err := [] }

/-- The first three stages (base load, adapter load, merge) as one
`Except` computation; these run before anything touches the
filesystem. -/
def firstThreeStages {B P M T : Type} (env : Env B P M T) (b a : String) :
    Except String M :=
  match env.loadBase b with
  | .error e => .error e
  | .ok bm =>
    match env.loadAdapter bm a with
    | .error e => .error e
    | .ok pm => env.mergeAndUnload pm

/-- Modelled from the spec: contract of the framework's
`save_pretrained` ("a safe (non-arbitrary-code-execution) serialization
format, sharded so that no single file exceeds" the requested limit) —
when called with `safe_serialization=True` and a shard-size limit, every
weight shard it produces is within the limit and in the safe format. -/
def ShardSaveContract {B P M T : Type} (env : Env B P M T) : Prop :=
  ∀ mm dir maxB files, env.savePretrained mm dir true maxB = .ok files →
    ∀ n size safe, (n, File.shard size safe) ∈ files → size ≤ maxB ∧ safe = true

/-- Modelled from the spec: contract of the tokenizer's
`save_pretrained` ("tokenizer files") — it produces tokenizer/metadata
files, never weight shards. -/
def TokSaveContract {B P M T : Type} (env : Env B P M T) : Prop :=
  ∀ tk dir files, env.saveTokenizer tk dir = .ok files →
    ∀ n size safe, (n, File.shard size safe) ∉ files

@[simp]
theorem files_outMsg (fs : FSState) (m : Msg) : (outMsg fs m).files = fs.files := rfl

@[simp]
theorem dirs_outMsg (fs : FSState) (m : Msg) : (outMsg fs m).dirs = fs.dirs := rfl

@[simp]
theorem err_outMsg (fs : FSState) (m : Msg) : (outMsg fs m).err = fs.err := rfl

@[simp]
theorem out_outMsg (fs : FSState) (m : Msg) : (outMsg fs m).out = fs.out ++ [m] := rfl

@[simp]
theorem files_errMsg (fs : FSState) (m : Msg) : (errMsg fs m).files = fs.files := rfl

@[simp]
theorem dirs_errMsg (fs : FSState) (m : Msg) : (errMsg fs m).dirs = fs.dirs := rfl

@[simp]
theorem err_errMsg (fs : FSState) (m : Msg) : (errMsg fs m).err = fs.err ++ [m] := rfl

@[simp]
theorem out_errMsg (fs : FSState) (m : Msg) : (errMsg fs m).out = fs.out := rfl

@[simp]
theorem lookupFile_outMsg (fs : FSState) (m : Msg) (p : String) :
    lookupFile (outMsg fs m) p = lookupFile fs p := rfl

/-- `os.makedirs(p, exist_ok=True)` never raises: it returns the state
with `p` added to the directories when absent. -/
theorem makedirs_true (fs : FSState) (p : String) :
    makedirs fs p true
      = .ok { fs with dirs := if p ∈ fs.dirs then fs.dirs else p :: fs.dirs } := by
  unfold makedirs
  split <;> simp_all

@[simp]
theorem dirs_writeFiles (fs : FSState) (dir : String) (l : List (String × File)) :
    (writeFiles fs dir l).dirs = fs.dirs := by
  induction l generalizing fs with
  | nil => rfl
  | cons hd tl ih => cases hd; simp [writeFiles, writeFile, ih]

@[simp]
theorem err_writeFiles (fs : FSState) (dir : String) (l : List (String × File)) :
    (writeFiles fs dir l).err = fs.err := by
  induction l generalizing fs with
  | nil => rfl
  | cons hd tl ih => cases hd; simp [writeFiles, writeFile, ih]

@[simp]
theorem out_writeFiles (fs : FSState) (dir : String) (l : List (String × File)) :
    (writeFiles fs dir l).out = fs.out := by
  induction l generalizing fs with
  | nil => rfl
  | cons hd tl ih => cases hd; simp [writeFiles, writeFile, ih]

/-- Paths not of the form `dir/<name>` are untouched by `writeFiles`. -/
theorem lookupFile_writeFiles_notUnder (fs : FSState) (dir : String)
    (l : List (String × File)) (p : String) (hp : ∀ n, p ≠ dir ++ "/" ++ n) :
    lookupFile (writeFiles fs dir l) p = lookupFile fs p := by
  induction l generalizing fs with
  | nil => rfl
  | cons hd tl ih =>
    cases hd with
    | mk n f =>
      rw [writeFiles, ih]
      simp only [lookupFile, writeFile, List.lookup]
      have : (p == dir ++ "/" ++ n) = false := by
        simp [hp n]
      simp [this]

/-- Any content found after `writeFiles` was either already there or is
one of the written files, at its `dir/<name>` path. -/
theorem lookupFile_writeFiles_mem (fs : FSState) (dir : String)
    (l : List (String × File)) (p : String) (f : File)
    (h : lookupFile (writeFiles fs dir l) p = some f) :
    lookupFile fs p = some f ∨ ∃ n, (n, f) ∈ l ∧ p = dir ++ "/" ++ n := by
  induction l generalizing fs with
  | nil => exact .inl h
  | cons hd tl ih =>
    cases hd with
    | mk n g =>
      rw [writeFiles] at h
      rcases ih _ h with h' | ⟨n', hmem, hp⟩
      · by_cases hpq : p = dir ++ "/" ++ n
        · have hg : g = f := by
            simpa [lookupFile, writeFile, List.lookup, hpq] using h'

          exact .inr ⟨n, by simp [hg], hpq⟩
        · left
          have hbeq : (p == dir ++ "/" ++ n) = false := by simp [hpq]
          simpa [lookupFile, writeFile, List.lookup, hbeq] using h'
      · exact .inr ⟨n', by simp [hmem], hp⟩

/-- The returned boolean and the stage trace of `merge_lora_adapter` do
not depend on the starting filesystem state: the pipeline only reads the
filesystem through `os.makedirs(..., exist_ok=True)`, which never
fails. -/
theorem merge_fs_const {B P M T : Type} (env : Env B P M T) (b a o : String)
    (fs fs' : FSState) :
    (merge_lora_adapter env b a o fs).success = (merge_lora_adapter env b a o fs').success ∧
    (merge_lora_adapter env b a o fs).trace = (merge_lora_adapter env b a o fs').trace := by
  cases hb : env.loadBase b with
  | error e => simp [merge_lora_adapter, hb]
  | ok bm =>
    cases ha : env.loadAdapter bm a with
    | error e => simp [merge_lora_adapter, hb, ha]
    | ok pm =>
      cases hm : env.mergeAndUnload pm with
      | error e => simp [merge_lora_adapter, hb, ha, hm]
      | ok mm =>
        cases hs : env.savePretrained mm o true twoGB with
        | error e => simp [merge_lora_adapter, hb, ha, hm, makedirs_true, hs]
        | ok shards =>
          cases ht : env.loadTokenizer a with
          | error e => simp [merge_lora_adapter, hb, ha, hm, makedirs_true, hs, ht]
          | ok tk =>
            cases hk : env.saveTokenizer tk o with
            | error e => simp [merge_lora_adapter, hb, ha, hm, makedirs_true, hs, ht, hk]
            | ok tf => simp [merge_lora_adapter, hb, ha, hm, makedirs_true, hs, ht, hk]

/-- The merge reports success exactly when the whole stage chain runs
without an error. -/
theorem merge_success_iff {B P M T : Type} (env : Env B P M T) (b a o : String)
    (fs : FSState) :
    (merge_lora_adapter env b a o fs).success = true ↔ runStages env b a o = .ok () := by
  cases hb : env.loadBase b with
  | error e => simp [merge_lora_adapter, runStages, hb]
  | ok bm =>
    cases ha : env.loadAdapter bm a with
    | error e => simp [merge_lora_adapter, runStages, hb, ha]
    | ok pm =>
      cases hm : env.mergeAndUnload pm with
      | error e => simp [merge_lora_adapter, runStages, hb, ha, hm]
      | ok mm =>
        cases hs : env.savePretrained mm o true twoGB with
        | error e => simp [merge_lora_adapter, runStages, hb, ha, hm, makedirs_true, hs]
        | ok shards =>
          cases ht : env.loadTokenizer a with
          | error e => simp [merge_lora_adapter, runStages, hb, ha, hm, makedirs_true, hs, ht]
          | ok tk =>
            cases hk : env.saveTokenizer tk o with
            | error e =>
              simp [merge_lora_adapter, runStages, hb, ha, hm, makedirs_true, hs, ht, hk]
            | ok tf =>
              simp [merge_lora_adapter, runStages, hb, ha, hm, makedirs_true, hs, ht, hk]

/-- When the stage chain raises `e`, the merge returns `False` and the
only stderr output is the caught error's description. -/
theorem merge_error_err {B P M T : Type} (env : Env B P M T) (b a o : String)
    (fs : FSState) (e : String) (he : runStages env b a o = .error e) :
    (merge_lora_adapter env b a o fs).success = false ∧
    (merge_lora_adapter env b a o fs).fs.err = fs.err ++ [.mergeError e] := by
  cases hb : env.loadBase b with
  | error e0 =>
    simp only [runStages, hb, Except.error.injEq] at he
    subst he
    simp [merge_lora_adapter, hb]
  | ok bm =>
    cases ha : env.loadAdapter bm a with
    | error e0 =>
      simp only [runStages, hb, ha, Except.error.injEq] at he
      subst he
      simp [merge_lora_adapter, hb, ha]
    | ok pm =>
      cases hm : env.mergeAndUnload pm with
      | error e0 =>
        simp only [runStages, hb, ha, hm, Except.error.injEq] at he
        subst he
        simp [merge_lora_adapter, hb, ha, hm]
      | ok mm =>
        cases hs : env.savePretrained mm o true twoGB with
        | error e0 =>
          simp only [runStages, hb, ha, hm, hs, Except.error.injEq] at he
          subst he
          simp [merge_lora_adapter, hb, ha, hm, makedirs_true, hs]
        | ok shards =>
          cases ht : env.loadTokenizer a with
          | error e0 =>
            simp only [runStages, hb, ha, hm, hs, ht, Except.error.injEq] at he
            subst he
            simp [merge_lora_adapter, hb, ha, hm, makedirs_true, hs, ht]
          | ok tk =>
            cases hk : env.saveTokenizer tk o with
            | error e0 =>
              simp only [runStages, hb, ha, hm, hs, ht, hk, Except.error.injEq] at he
              subst he
              simp [merge_lora_adapter, hb, ha, hm, makedirs_true, hs, ht, hk]
            | ok tf =>
              simp only [runStages, hb, ha, hm, hs, ht, hk] at he
              exact absurd he (by simp)

/-- **C1.**  `merge_lora_adapter` returns `True` exactly when all stages
complete without raising; a raise at any stage is caught at the
operation's boundary, the error's description is emitted to stderr, and
`False` is returned (no exception escapes — the embedding is a total
function); and when `main` reaches the merge, it exits 0 exactly when the
operation returned success and 1 otherwise. -/
theorem C1_success_boundary_exit {B P M T : Type} (env : Env B P M T)
    (b a o : String) (fs : FSState) :
    ((merge_lora_adapter env b a o fs).success = true ↔ runStages env b a o = .ok ()) ∧
    (∀ e, runStages env b a o = .error e →
      (merge_lora_adapter env b a o fs).success = false ∧
      (merge_lora_adapter env b a o fs).fs.err = fs.err ++ [.mergeError e]) ∧
    (∀ argv : List String, 4 ≤ argv.length →
      pathExists fs (argv.getD 2 "") = true →
      (required_files.filter
        (fun f => !(pathExists fs ((argv.getD 2 "") ++ "/" ++ f)))).isEmpty = true →
      (main' env argv fs).exitCode =
        if (merge_lora_adapter env (argv.getD 1 "") (argv.getD 2 "") (argv.getD 3 "")
            fs).success then 0 else 1) := by
  refine ⟨merge_success_iff env b a o fs, fun e he => merge_error_err env b a o fs e he, ?_⟩
  intro argv h4 hex hmiss
  rw [main', if_neg (Nat.not_lt.mpr h4)]
  simp only [hex, Bool.true_eq_false, if_false, hmiss, if_neg]
  rw [(merge_fs_const env (argv.getD 1 "") (argv.getD 2 "") (argv.getD 3 "")
    (outMsg fs (.banner (argv.getD 1 "") (argv.getD 2 "") (argv.getD 3 ""))) fs).1]
  cases (merge_lora_adapter env (argv.getD 1 "") (argv.getD 2 "") (argv.getD 3 "")
      fs).success <;> simp

/-- Witness for C1 at a concrete environment and filesystem. -/
theorem C1_witness :
    (main' exEnv ["prog", "b", "adptr", "out"] fs0).exitCode =
      if (merge_lora_adapter exEnv "b" "adptr" "out" fs0).success then 0 else 1 :=
  (C1_success_boundary_exit exEnv "b" "adptr" "out" fs0).2.2
    ["prog", "b", "adptr", "out"] (by decide) (by decide) (by decide)

/-- **C2.**  Every successful `merge_lora_adapter basePath adapterPath
outputPath` leaves `merge_info.json` in `outputPath` holding exactly the
four fields `base_model = basePath`, `adapter_path = adapterPath`,
`merged_by = "rag-dashboard"` (the fixed tool string) and
`dtype = "float16"`. -/
theorem C2_merge_info_exact_fields {B P M T : Type} (env : Env B P M T)
    (b a o : String) (fs : FSState)
    (h : (merge_lora_adapter env b a o fs).success = true) :
    lookupFile (merge_lora_adapter env b a o fs).fs (o ++ "/merge_info.json")
      = some (.jsonObj [("base_model", b), ("adapter_path", a),
          ("merged_by", "rag-dashboard"), ("dtype", "float16")]) := by
  cases hb : env.loadBase b with
  | error e => simp [merge_lora_adapter, hb] at h
  | ok bm =>
    cases ha : env.loadAdapter bm a with
    | error e => simp [merge_lora_adapter, hb, ha] at h
    | ok pm =>
      cases hm : env.mergeAndUnload pm with
      | error e => simp [merge_lora_adapter, hb, ha, hm] at h
      | ok mm =>
        cases hs : env.savePretrained mm o true twoGB with
        | error e => simp [merge_lora_adapter, hb, ha, hm, makedirs_true, hs] at h
        | ok shards =>
          cases ht : env.loadTokenizer a with
          | error e => simp [merge_lora_adapter, hb, ha, hm, makedirs_true, hs, ht] at h
          | ok tk =>
            cases hk : env.saveTokenizer tk o with
            | error e =>
              simp [merge_lora_adapter, hb, ha, hm, makedirs_true, hs, ht, hk] at h
            | ok tf =>
              simp [merge_lora_adapter, hb, ha, hm, makedirs_true, hs, ht, hk,
                lookupFile, writeFile, List.lookup]

/-- Witness for C2: a concrete successful merge, with the four metadata
fields checked. -/
theorem C2_witness :
    lookupFile (merge_lora_adapter exEnv "b" "adptr" "out" fs0).fs "out/merge_info.json"
      = some (.jsonObj [("base_model", "b"), ("adapter_path", "adptr"),
          ("merged_by", "rag-dashboard"), ("dtype", "float16")]) :=
  C2_merge_info_exact_fields exEnv "b" "adptr" "out" fs0 (by decide)

/-- **C5.**  The six stages run in the strict order base-load,
adapter-load, merge, weight-save, tokenizer-save, metadata-write: the
completed-stage trace is always a prefix of the full stage list, and the
operation succeeds exactly when the whole list completed — so after a
failing stage no later stage's effect occurs. -/
theorem C5_stage_order_abort {B P M T : Type} (env : Env B P M T)
    (b a o : String) (fs : FSState) :
    (∃ n, (merge_lora_adapter env b a o fs).trace = (fullTrace b a o).take n) ∧
    ((merge_lora_adapter env b a o fs).success = true ↔
      (merge_lora_adapter env b a o fs).trace = fullTrace b a o) := by
  cases hb : env.loadBase b with
  | error e => exact ⟨⟨0, by simp [merge_lora_adapter, hb]⟩,
      by simp [merge_lora_adapter, hb, fullTrace]⟩
  | ok bm =>
    cases ha : env.loadAdapter bm a with
    | error e => exact ⟨⟨1, by simp [merge_lora_adapter, hb, ha, fullTrace]⟩,
        by simp [merge_lora_adapter, hb, ha, fullTrace]⟩
    | ok pm =>
      cases hm : env.mergeAndUnload pm with
      | error e => exact ⟨⟨2, by simp [merge_lora_adapter, hb, ha, hm, fullTrace]⟩,
          by simp [merge_lora_adapter, hb, ha, hm, fullTrace]⟩
      | ok mm =>
        cases hs : env.savePretrained mm o true twoGB with
        | error e => exact ⟨⟨3, by
            simp [merge_lora_adapter, hb, ha, hm, makedirs_true, hs, fullTrace]⟩,
          by simp [merge_lora_adapter, hb, ha, hm, makedirs_true, hs, fullTrace]⟩
        | ok shards =>
          cases ht : env.loadTokenizer a with
          | error e => exact ⟨⟨4, by
              simp [merge_lora_adapter, hb, ha, hm, makedirs_true, hs, ht]⟩,
            by simp [merge_lora_adapter, hb, ha, hm, makedirs_true, hs, ht, fullTrace]⟩
          | ok tk =>
            cases hk : env.saveTokenizer tk o with
            | error e => exact ⟨⟨4, by
                simp [merge_lora_adapter, hb, ha, hm, makedirs_true, hs, ht, hk]⟩,
              by simp [merge_lora_adapter, hb, ha, hm, makedirs_true, hs, ht, hk, fullTrace]⟩
            | ok tf => exact ⟨⟨6, by
                simp [merge_lora_adapter, hb, ha, hm, makedirs_true, hs, ht, hk, fullTrace]⟩,
              by simp [merge_lora_adapter, hb, ha, hm, makedirs_true, hs, ht, hk]⟩

/-- **C7.**  The tokenizer stage always loads from the adapter directory
(never from the base model) and saves to the output directory, and every
successful merge performed that stage. -/
theorem C7_tokenizer_from_adapter {B P M T : Type} (env : Env B P M T)
    (b a o : String) (fs : FSState) :
    (∀ src dst, Ev.tok src dst ∈ (merge_lora_adapter env b a o fs).trace →
      src = a ∧ dst = o) ∧
    ((merge_lora_adapter env b a o fs).success = true →
      Ev.tok a o ∈ (merge_lora_adapter env b a o fs).trace) := by
  cases hb : env.loadBase b with
  | error e => simp [merge_lora_adapter, hb]
  | ok bm =>
    cases ha : env.loadAdapter bm a with
    | error e => simp [merge_lora_adapter, hb, ha]
    | ok pm =>
      cases hm : env.mergeAndUnload pm with
      | error e => simp [merge_lora_adapter, hb, ha, hm]
      | ok mm =>
        cases hs : env.savePretrained mm o true twoGB with
        | error e => simp [merge_lora_adapter, hb, ha, hm, makedirs_true, hs]
        | ok shards =>
          cases ht : env.loadTokenizer a with
          | error e =>
            simp [merge_lora_adapter, hb, ha, hm, makedirs_true, hs, ht, fullTrace]
          | ok tk =>
            cases hk : env.saveTokenizer tk o with
            | error e =>
              simp [merge_lora_adapter, hb, ha, hm, makedirs_true, hs, ht, hk, fullTrace]
            | ok tf =>
              constructor
              · intro src dst hmem
                simp [merge_lora_adapter, hb, ha, hm, makedirs_true, hs, ht, hk,
                  fullTrace] at hmem
                exact hmem
              · intro _
                simp [merge_lora_adapter, hb, ha, hm, makedirs_true, hs, ht, hk, fullTrace]

/-- Witness for C7: in a concrete successful run the tokenizer event is
present, and the theorem pins its source to the adapter path. -/
theorem C7_witness :
    Ev.tok "adptr" "out" ∈ (merge_lora_adapter exEnv "b" "adptr" "out" fs0).trace :=
  (C7_tokenizer_from_adapter exEnv "b" "adptr" "out" fs0).2 (by decide)

/-- **C3.**  When the adapter path exists but required adapter files are
missing, the CLI exits 1, its stderr diagnostic lists exactly the missing
file(s) among the two required ones, and no model loading is attempted:
the run is identical under every environment, so `merge_lora_adapter` is
never invoked. -/
theorem C3_missing_files_precheck {B P M T B' P' M' T' : Type}
    (env : Env B P M T) (env' : Env B' P' M' T') (argv : List String) (fs : FSState)
    (h4 : 4 ≤ argv.length)
    (hex : pathExists fs (argv.getD 2 "") = true)
    (hmiss : required_files.filter
      (fun f => !(pathExists fs ((argv.getD 2 "") ++ "/" ++ f))) ≠ []) :
    (main' env argv fs).exitCode = 1 ∧
    (main' env argv fs).fs.err = fs.err ++ [.missingFiles (required_files.filter
      (fun f => !(pathExists fs ((argv.getD 2 "") ++ "/" ++ f))))] ∧
    (∀ f, f ∈ required_files.filter
        (fun f => !(pathExists fs ((argv.getD 2 "") ++ "/" ++ f))) ↔
      f ∈ required_files ∧ pathExists fs ((argv.getD 2 "") ++ "/" ++ f) = false) ∧
    main' env argv fs = main' env' argv fs := by
  have hne : (required_files.filter
      (fun f => !(pathExists fs ((argv.getD 2 "") ++ "/" ++ f)))).isEmpty = false := by
    cases hcase : (required_files.filter
        (fun f => !(pathExists fs ((argv.getD 2 "") ++ "/" ++ f)))).isEmpty with
    | false => rfl
    | true => exact absurd (List.isEmpty_iff.mp hcase) hmiss
  have hrun : ∀ {B2 P2 M2 T2 : Type} (env2 : Env B2 P2 M2 T2),
      main' env2 argv fs = ⟨1, errMsg fs (.missingFiles (required_files.filter
        (fun f => !(pathExists fs ((argv.getD 2 "") ++ "/" ++ f))))), []⟩ := by
    intro B2 P2 M2 T2 env2
    rw [main', if_neg (Nat.not_lt.mpr h4)]
    simp only [hex, Bool.true_eq_false, if_false, hne, eq_self_iff_true, if_true]
  refine ⟨by rw [hrun], by rw [hrun]; simp [errMsg], ?_, by rw [hrun, hrun]⟩
  intro f
  simp [List.mem_filter]

/-- Witness for C3: the adapter directory exists but lacks the weight
file; the CLI exits 1. -/
theorem C3_witness :
    (main' exEnv ["prog", "b", "adptr", "out"] fsNoWeights).exitCode = 1 :=
  (C3_missing_files_precheck exEnv failEnv ["prog", "b", "adptr", "out"] fsNoWeights
    (by decide) (by decide) (by decide)).1

/-- **C4 counterexample.**  The claim says an invocation with more than
three positional arguments exits non-zero with a usage message; but with
four positional arguments (five `argv` entries) the CLI proceeds
normally, exits 0 on a successful merge, and never prints usage. -/
theorem C4_counterexample :
    (main' exEnv ["merge_model.py", "b", "adptr", "out", "extra"] fs0).exitCode = 0 ∧
    Msg.usage ∉ (main' exEnv ["merge_model.py", "b", "adptr", "out", "extra"] fs0).fs.out := by
  decide

/-- **C4 (amended).**  The CLI requires at least three positional
arguments: with fewer it exits 1, prints the usage message, and touches
neither files nor directories, attempting no model loading (the result is
the same under every environment); positional arguments beyond the third
are ignored and the run proceeds as with exactly three. -/
theorem C4_usage_check {B P M T B' P' M' T' : Type}
    (env : Env B P M T) (env' : Env B' P' M' T') (argv : List String) (fs : FSState)
    (h : argv.length < 4) :
    ((main' env argv fs).exitCode = 1 ∧
     (main' env argv fs).fs.out = fs.out ++ [.usage] ∧
     (main' env argv fs).fs.files = fs.files ∧
     (main' env argv fs).fs.dirs = fs.dirs ∧
     main' env argv fs = main' env' argv fs) ∧
    (∀ a0 a1 a2 a3 rest, main' env (a0 :: a1 :: a2 :: a3 :: rest) fs
        = main' env [a0, a1, a2, a3] fs) := by
  constructor
  · simp [main', h]
  · intro a0 a1 a2 a3 rest
    have h1 : ¬ (a0 :: a1 :: a2 :: a3 :: rest).length < 4 := by
      simp only [List.length_cons]
      omega
    have h2 : ¬ ([a0, a1, a2, a3] : List String).length < 4 := by
      simp only [List.length_cons, List.length_nil]
      omega
    rw [main', main', if_neg h1, if_neg h2]
    simp [List.getD]

/-- Witness for C4 (amended): one missing argument makes the CLI exit 1. -/
theorem C4_witness :
    (main' exEnv ["prog", "b"] fs0).exitCode = 1 :=
  ((C4_usage_check exEnv failEnv ["prog", "b"] fs0 (by decide)).1).1

/-- **C9.**  Output-directory creation is idempotent: the merge's result
boolean does not depend on the starting filesystem at all (in particular
not on whether `outputPath` already exists), a second merge into the
state produced by a first one returns the same result, and a successful
merge leaves `outputPath` among the existing directories. -/
theorem C9_idempotent_output_dir {B P M T : Type} (env : Env B P M T)
    (b a o : String) (fs fs' : FSState) :
    (merge_lora_adapter env b a o fs).success
      = (merge_lora_adapter env b a o fs').success ∧
    (merge_lora_adapter env b a o (merge_lora_adapter env b a o fs).fs).success
      = (merge_lora_adapter env b a o fs).success ∧
    ((merge_lora_adapter env b a o fs).success = true →
      o ∈ (merge_lora_adapter env b a o fs).fs.dirs) := by
  refine ⟨(merge_fs_const env b a o fs fs').1, (merge_fs_const env b a o _ fs).1, ?_⟩
  intro h
  cases hb : env.loadBase b with
  | error e => simp [merge_lora_adapter, hb] at h
  | ok bm =>
    cases ha : env.loadAdapter bm a with
    | error e => simp [merge_lora_adapter, hb, ha] at h
    | ok pm =>
      cases hm : env.mergeAndUnload pm with
      | error e => simp [merge_lora_adapter, hb, ha, hm] at h
      | ok mm =>
        cases hs : env.savePretrained mm o true twoGB with
        | error e => simp [merge_lora_adapter, hb, ha, hm, makedirs_true, hs] at h
        | ok shards =>
          cases ht : env.loadTokenizer a with
          | error e => simp [merge_lora_adapter, hb, ha, hm, makedirs_true, hs, ht] at h
          | ok tk =>
            cases hk : env.saveTokenizer tk o with
            | error e =>
              simp [merge_lora_adapter, hb, ha, hm, makedirs_true, hs, ht, hk] at h
            | ok tf =>
              simp only [merge_lora_adapter, hb, ha, hm, makedirs_true, hs, ht, hk]
              by_cases hmem : o ∈ fs.dirs <;>
                simp [writeFile, hmem]

/-- Witness for C9: after a successful concrete merge the output
directory exists. -/
theorem C9_witness :
    "out" ∈ (merge_lora_adapter exEnv "b" "adptr" "out" fs0).fs.dirs :=
  (C9_idempotent_output_dir exEnv "b" "adptr" "out" fs0 fs0).2.2 (by decide)

/-- **C10.**  A raise in any of the first three stages (base load,
adapter load, merge) makes `merge_lora_adapter` return `False` with the
filesystem unchanged: no file is written and `outputPath` is not
created, since `os.makedirs` runs only after the merge stage. -/
theorem C10_presave_failure_fs_unchanged {B P M T : Type} (env : Env B P M T)
    (b a o : String) (fs : FSState) (e : String)
    (h : firstThreeStages env b a = .error e) :
    (merge_lora_adapter env b a o fs).success = false ∧
    (merge_lora_adapter env b a o fs).fs.files = fs.files ∧
    (merge_lora_adapter env b a o fs).fs.dirs = fs.dirs := by
  cases hb : env.loadBase b with
  | error e0 => simp [merge_lora_adapter, hb]
  | ok bm =>
    cases ha : env.loadAdapter bm a with
    | error e0 => simp [merge_lora_adapter, hb, ha]
    | ok pm =>
      cases hm : env.mergeAndUnload pm with
      | error e0 => simp [merge_lora_adapter, hb, ha, hm]
      | ok mm => simp [firstThreeStages, hb, ha, hm] at h

/-- Witness for C10: a failing base-model load leaves the concrete
filesystem untouched. -/
theorem C10_witness :
    (merge_lora_adapter failEnv "b" "adptr" "out" fs0).success = false ∧
    (merge_lora_adapter failEnv "b" "adptr" "out" fs0).fs.files = fs0.files ∧
    (merge_lora_adapter failEnv "b" "adptr" "out" fs0).fs.dirs = fs0.dirs :=
  C10_presave_failure_fs_unchanged failEnv "b" "adptr" "out" fs0 "base model not found" rfl

@[simp]
theorem lookupFile_errMsg (fs : FSState) (m : Msg) (p : String) :
    lookupFile (errMsg fs m) p = lookupFile fs p := rfl

@[simp]
theorem lookupFile_writeFile_ne (fs : FSState) (q : String) (f : File) (p : String)
    (h : (p == q) = false) :
    lookupFile (writeFile fs q f) p = lookupFile fs p := by
  simp [lookupFile, writeFile, List.lookup, h]

/-- Frame property of the merge: a path not of the form
`outputPath/<name>` holds the same content after `merge_lora_adapter` as
before. -/
theorem merge_frame {B P M T : Type} (env : Env B P M T) (b a o : String)
    (fs : FSState) (p : String) (hp : ∀ n, p ≠ o ++ "/" ++ n) :
    lookupFile (merge_lora_adapter env b a o fs).fs p = lookupFile fs p := by
  cases hb : env.loadBase b with
  | error e => simp [merge_lora_adapter, hb]
  | ok bm =>
    cases ha : env.loadAdapter bm a with
    | error e => simp [merge_lora_adapter, hb, ha]
    | ok pm =>
      cases hm : env.mergeAndUnload pm with
      | error e => simp [merge_lora_adapter, hb, ha, hm]
      | ok mm =>
        cases hs : env.savePretrained mm o true twoGB with
        | error e => simp [merge_lora_adapter, hb, ha, hm, makedirs_true, hs, lookupFile]
        | ok shards =>
          cases ht : env.loadTokenizer a with
          | error e =>
            simp only [merge_lora_adapter, hb, ha, hm, makedirs_true, hs, ht,
              lookupFile_errMsg, lookupFile_outMsg]
            rw [lookupFile_writeFiles_notUnder _ _ _ _ hp]
            simp [lookupFile]
          | ok tk =>
            cases hk : env.saveTokenizer tk o with
            | error e =>
              simp only [merge_lora_adapter, hb, ha, hm, makedirs_true, hs, ht, hk,
                lookupFile_errMsg, lookupFile_outMsg]
              rw [lookupFile_writeFiles_notUnder _ _ _ _ hp]
              simp [lookupFile]
            | ok tf =>
              have hmi : p ≠ o ++ "/merge_info.json" := by
                have h := hp "merge_info.json"
                rw [String.append_assoc] at h
                exact h
              have hbeq : (p == o ++ "/merge_info.json") = false := by
                simp [hmi]
              simp only [merge_lora_adapter, hb, ha, hm, makedirs_true, hs, ht, hk,
                lookupFile_outMsg]
              rw [lookupFile_writeFile_ne _ _ _ _ hbeq]
              simp only [lookupFile_outMsg]
              rw [lookupFile_writeFiles_notUnder _ _ _ _ hp]
              simp only [lookupFile_outMsg]
              rw [lookupFile_writeFiles_notUnder _ _ _ _ hp]
              simp [lookupFile]

/-- Directory-frame property: the merge creates at most the output
directory. -/
theorem merge_dirs {B P M T : Type} (env : Env B P M T) (b a o : String)
    (fs : FSState) (d : String)
    (hd : d ∈ (merge_lora_adapter env b a o fs).fs.dirs) :
    d ∈ fs.dirs ∨ d = o := by
  cases hb : env.loadBase b with
  | error e => simp [merge_lora_adapter, hb] at hd; exact .inl hd
  | ok bm =>
    cases ha : env.loadAdapter bm a with
    | error e => simp [merge_lora_adapter, hb, ha] at hd; exact .inl hd
    | ok pm =>
      cases hm : env.mergeAndUnload pm with
      | error e => simp [merge_lora_adapter, hb, ha, hm] at hd; exact .inl hd
      | ok mm =>
        cases hs : env.savePretrained mm o true twoGB with
        | error e =>
          simp [merge_lora_adapter, hb, ha, hm, makedirs_true, hs] at hd
          by_cases hmem : o ∈ fs.dirs <;> simp [hmem] at hd <;> tauto
        | ok shards =>
          cases ht : env.loadTokenizer a with
          | error e =>
            simp [merge_lora_adapter, hb, ha, hm, makedirs_true, hs, ht] at hd
            by_cases hmem : o ∈ fs.dirs <;> simp [hmem] at hd <;> tauto
          | ok tk =>
            cases hk : env.saveTokenizer tk o with
            | error e =>
              simp [merge_lora_adapter, hb, ha, hm, makedirs_true, hs, ht, hk] at hd
              by_cases hmem : o ∈ fs.dirs <;> simp [hmem] at hd <;> tauto
            | ok tf =>
              simp [merge_lora_adapter, hb, ha, hm, makedirs_true, hs, ht, hk,
                writeFile] at hd
              by_cases hmem : o ∈ fs.dirs <;> simp [hmem] at hd <;> tauto

/-- **C8 counterexample.**  The claim says `merge_lora_adapter` never
mutates the contents of `adapterPath`; but invoking it with `outputPath`
equal to `adapterPath` succeeds and writes `merge_info.json` into the
adapter directory, changing its contents. -/
theorem C8_counterexample :
    (merge_lora_adapter exEnv "base" "adptr" "adptr" fs0).success = true ∧
    lookupFile fs0 "adptr/merge_info.json" = none ∧
    lookupFile (merge_lora_adapter exEnv "base" "adptr" "adptr" fs0).fs
        "adptr/merge_info.json"
      = some (.jsonObj [("base_model", "base"), ("adapter_path", "adptr"),
          ("merged_by", "rag-dashboard"), ("dtype", "float16")]) := by
  decide

/-- **C8 (amended).**  `merge_lora_adapter` writes files only at paths of
the form `outputPath/<name>` and creates at most the directory
`outputPath`; hence the contents of `basePath` and `adapterPath` are not
mutated whenever their entries do not lie under `outputPath` (which can
fail only when `outputPath` coincides with or contains those
directories). -/
theorem C8_writes_only_under_output {B P M T : Type} (env : Env B P M T)
    (b a o : String) (fs : FSState) :
    (∀ p, (∀ n, p ≠ o ++ "/" ++ n) →
      lookupFile (merge_lora_adapter env b a o fs).fs p = lookupFile fs p) ∧
    (∀ d, d ∈ (merge_lora_adapter env b a o fs).fs.dirs → d ∈ fs.dirs ∨ d = o) :=
  ⟨fun p hp => merge_frame env b a o fs p hp,
   fun d hd => merge_dirs env b a o fs d hd⟩

/-- Witness for C8 (amended): the empty path is not of the form
`"out/<name>"`, and its content survives a concrete merge unchanged. -/
theorem C8_witness :
    lookupFile (merge_lora_adapter exEnv "b" "adptr" "out" fs0).fs ""
      = lookupFile fs0 "" :=
  (C8_writes_only_under_output exEnv "b" "adptr" "out" fs0).1 "" (by
    intro n h
    have hl := congrArg String.length h
    rw [String.length_append, String.length_append] at hl
    have h1 : ("" : String).length = 0 := rfl
    have h2 : ("out" : String).length = 3 := rfl
    have h3 : ("/" : String).length = 1 := rfl
    omega)

/-- **C6.**  The script requests safe serialization and the 2 GB shard
limit (visible in the stage trace), so — under the save routine's
contract — every weight-shard file a successful merge adds to the output
is in the safe format and at most 2 GB. -/
theorem C6_safe_sharding {B P M T : Type} (env : Env B P M T) (b a o : String)
    (fs : FSState) (hc : ShardSaveContract env) (htc : TokSaveContract env)
    (h : (merge_lora_adapter env b a o fs).success = true) :
    (∀ d s mB, Ev.saveModel d s mB ∈ (merge_lora_adapter env b a o fs).trace →
      d = o ∧ s = true ∧ mB = twoGB) ∧
    (∀ p size safe, lookupFile fs p = none →
      lookupFile (merge_lora_adapter env b a o fs).fs p = some (.shard size safe) →
      size ≤ twoGB ∧ safe = true) := by
  cases hb : env.loadBase b with
  | error e => simp [merge_lora_adapter, hb] at h
  | ok bm =>
    cases ha : env.loadAdapter bm a with
    | error e => simp [merge_lora_adapter, hb, ha] at h
    | ok pm =>
      cases hm : env.mergeAndUnload pm with
      | error e => simp [merge_lora_adapter, hb, ha, hm] at h
      | ok mm =>
        cases hs : env.savePretrained mm o true twoGB with
        | error e => simp [merge_lora_adapter, hb, ha, hm, makedirs_true, hs] at h
        | ok shards =>
          cases ht : env.loadTokenizer a with
          | error e => simp [merge_lora_adapter, hb, ha, hm, makedirs_true, hs, ht] at h
          | ok tk =>
            cases hk : env.saveTokenizer tk o with
            | error e =>
              simp [merge_lora_adapter, hb, ha, hm, makedirs_true, hs, ht, hk] at h
            | ok tf =>
              constructor
              · intro d s mB hmem
                simp [merge_lora_adapter, hb, ha, hm, makedirs_true, hs, ht, hk,
                  fullTrace] at hmem
                tauto
              · intro p size safe hnone hlook
                simp only [merge_lora_adapter, hb, ha, hm, makedirs_true, hs, ht, hk,
                  lookupFile_outMsg] at hlook
                by_cases hpq : p = o ++ "/merge_info.json"
                · rw [hpq] at hlook
                  rw [lookupFile, writeFile] at hlook
                  simp [List.lookup] at hlook
                · have hbeq : (p == o ++ "/merge_info.json") = false := by simp [hpq]
                  rw [lookupFile_writeFile_ne _ _ _ _ hbeq] at hlook
                  rw [lookupFile_outMsg] at hlook
                  rcases lookupFile_writeFiles_mem _ _ _ _ _ hlook with h1 | ⟨n, hmemtf, hp⟩
                  · rw [lookupFile_outMsg, lookupFile_outMsg] at h1
                    rcases lookupFile_writeFiles_mem _ _ _ _ _ h1 with h2 | ⟨n, hmemsh, hp⟩
                    · simp only [lookupFile, files_outMsg] at h2 hnone
                      rw [hnone] at h2
                      cases h2
                    · exact hc _ _ _ _ hs n size safe hmemsh
                  · exact absurd hmemtf (htc _ _ _ hk n size safe)

/-- `exEnv` honours the shard-save contract: its only produced shard is
empty and safe. -/
theorem exEnv_shard_contract : ShardSaveContract exEnv := by
  intro mm dir maxB files hsave n size safe hmem
  simp only [exEnv] at hsave
  cases hsave
  simp at hmem
  obtain ⟨-, h2, h3⟩ := hmem
  exact ⟨by omega, h3⟩

/-- `exEnv` honours the tokenizer-save contract: it never produces a
weight shard. -/
theorem exEnv_tok_contract : TokSaveContract exEnv := by
  intro tk dir files hsave n size safe
  simp only [exEnv] at hsave
  cases hsave
  simp

/-- Witness for C6: the concrete shard `exEnv` wrote is within the
limit. -/
theorem C6_witness : (0 : Nat) ≤ twoGB ∧ true = true :=
  (C6_safe_sharding exEnv "b" "adptr" "out" fs0
      exEnv_shard_contract exEnv_tok_contract (by decide)).2
    "out/model-00001-of-00001.safetensors" 0 true (by decide) (by decide)
